import Mathlib

/-!
Verification of the Parity trace decoding and call-tree assembly core
(`evm_trace/parity.py`).

The Python source is shallowly embedded: each pydantic validator becomes a
Lean function over a `Raw` value (the JSON-decoded payload of a field, which
is either text or an integer), and `get_calltree_from_parity_trace` becomes a
recursive Lean function over decoded `ParityTrace` records.  A Python
exception (ValueError / TypeError / AttributeError) is modelled as `none`.
-/

/-- A raw JSON-decoded field value as Python sees it before validation:
either text (`str`) or an already-numeric value (`int`). -/
inductive Raw where
  | str (s : String)
  | int (n : Int)
deriving DecidableEq

/-- Value of a single hexadecimal digit, as accepted by Python `int(_, 16)`:
`0`-`9`, `a`-`f`, `A`-`F`. -/
def hexDigitVal (c : Char) : Option Nat :=
  if c.isDigit then some (c.toNat - '0'.toNat)
  else if 'a' ≤ c ∧ c ≤ 'f' then some (c.toNat - 'a'.toNat + 10)
  else if 'A' ≤ c ∧ c ≤ 'F' then some (c.toNat - 'A'.toNat + 10)
  else none

/-- Digits after the first one: Python allows a single underscore between two
digits (`"1_a"`), but no trailing, leading or doubled underscore. -/
def hexDigitsRest (acc : Nat) : List Char → Option Nat
  | [] => some acc
  | '_' :: c :: cs =>
      match hexDigitVal c with
      | some d => hexDigitsRest (16 * acc + d) cs
      | none => none
  | '_' :: [] => none
  | c :: cs =>
      match hexDigitVal c with
      | some d => hexDigitsRest (16 * acc + d) cs
      | none => none

/-- A nonempty run of hexadecimal digits (underscore separators allowed
between digits), starting with a digit. -/
def hexDigits : List Char → Option Nat
  | [] => none
  | c :: cs =>
      match hexDigitVal c with
      | some d => hexDigitsRest d cs
      | none => none

/-- The digit part of a base-16 numeral: an optional `0x`/`0X` marker (after
which Python also tolerates one underscore), then digits.  The marker is
optional: `int("26", 16)` parses `26` as hexadecimal. -/
def hexBody : List Char → Option Nat
  | '0' :: 'x' :: '_' :: rest => hexDigits rest
  | '0' :: 'x' :: rest => hexDigits rest
  | '0' :: 'X' :: '_' :: rest => hexDigits rest
  | '0' :: 'X' :: rest => hexDigits rest
  | cs => hexDigits cs

/-- An optional sign followed by the base-16 body. -/
def hexSigned : List Char → Option Int
  | '+' :: cs => (hexBody cs).map Int.ofNat
  | '-' :: cs => (hexBody cs).map (fun n => -(Int.ofNat n : Int))
  | cs => (hexBody cs).map Int.ofNat

/-- Strip leading and trailing whitespace, as Python `int` does. -/
def pyStrip (cs : List Char) : List Char :=
  ((cs.dropWhile Char.isWhitespace).reverse.dropWhile Char.isWhitespace).reverse

/-- Python `int(s, 16)` on a string: optional surrounding whitespace, optional
sign, optional `0x`/`0X` marker, hexadecimal digits.  `none` models a raised
`ValueError`. -/
def int_base16 (s : String) : Option Int :=
  hexSigned (pyStrip s.data)

/-- The amount of gas available / transferred value of a CALL-family action
(`evm_trace/parity.py`, class `CallAction`). -/
structure CallAction where
  gas : Int
  input : Option String
  receiver : Option String
  sender : String
  value : Int
  call_type : String
deriving DecidableEq

/-- `CallAction.convert_integer` (parity.py lines 22-24): `int(v, 16)`.
Python raises `TypeError` when `v` is not a string and an explicit base is
given, so non-text input yields `none`. -/
def CallAction.convert_integer (v : Raw) : Option Int :=
  match v with
  | .str s => int_base16 s
  | .int _ => none

/-- A CREATE action (`evm_trace/parity.py`, class `CreateAction`). -/
structure CreateAction where
  gas : Int
  init : String
  value : Int
deriving DecidableEq

/-- `CreateAction.convert_integer` (parity.py lines 36-38): `int(v, 16)`,
same hex-only rule as `CallAction.convert_integer`. -/
def CreateAction.convert_integer (v : Raw) : Option Int :=
  match v with
  | .str s => int_base16 s
  | .int _ => none

/-- A SELFDESTRUCT action (`evm_trace/parity.py`, class `SelfDestructAction`). -/
structure SelfDestructAction where
  address : String
  balance : Int
deriving DecidableEq

/-- `SelfDestructAction.convert_integer` (parity.py lines 45-47):
`int(v, 16) if isinstance(v, str) else int(v)`. -/
def SelfDestructAction.convert_integer (v : Raw) : Option Int :=
  match v with
  | .str s => int_base16 s
  | .int n => some n

/-- Base result payload (`evm_trace/parity.py`, class `ActionResult`). -/
structure ActionResult where
  gas_used : Int
deriving DecidableEq

/-- `ActionResult.convert_integer` (parity.py lines 63-65):
`int(v, 16) if isinstance(v, str) else int(v)`. -/
def ActionResult.convert_integer (v : Raw) : Option Int :=
  match v with
  | .str s => int_base16 s
  | .int n => some n

/-- Modelled from the spec: the closed operation-kind enum
(`evm_trace.enums.CallType`, not under src/).  The spec lists CALL,
DELEGATECALL, STATICCALL, CALLCODE, CREATE and SELFDESTRUCT as members, with
canonical uppercase tags as values. -/
inductive CallType where
  | CALL
  | CALLCODE
  | DELEGATECALL
  | STATICCALL
  | CREATE
  | SELFDESTRUCT
deriving DecidableEq

/-- Modelled from the spec: the enum value constructor `CallType(value)`,
mapping a tag string to the enum member with that value, raising
`ValueError` (here `none`) for a tag outside the closed set. -/
def CallType.ofString (s : String) : Option CallType :=
  if s = "CALL" then some .CALL
  else if s = "CALLCODE" then some .CALLCODE
  else if s = "DELEGATECALL" then some .DELEGATECALL
  else if s = "STATICCALL" then some .STATICCALL
  else if s = "CREATE" then some .CREATE
  else if s = "SELFDESTRUCT" then some .SELFDESTRUCT
  else none

/-- Python `value.upper()` on the tag text, character by character (the tags
in scope are ASCII). -/
def strUpper (s : String) : String :=
  String.mk (s.data.map Char.toUpper)

/-- Kind normalization (parity.py lines 104-108): uppercase the tag, apply
the SUICIDE to SELFDESTRUCT alias, then look the tag up in the closed enum. -/
def normalize_call_type (value : String) : Option CallType :=
  let v := strUpper value
  let v := if v = "SUICIDE" then "SELFDESTRUCT" else v
  CallType.ofString v

/-- The action payload of a record: exactly one of the three shapes
(`ParityTraceAction = Union[CreateAction, CallAction, SelfDestructAction]`). -/
inductive ParityTraceAction where
  | create (a : CreateAction)
  | call (a : CallAction)
  | selfDestruct (a : SelfDestructAction)
deriving DecidableEq

/-- `ParityTrace.convert_call_type` (parity.py lines 99-108): when the decoded
action is a `CallAction`, the raw outer value is replaced by the action's own
`call_type` field before normalization. -/
def ParityTrace.convert_call_type (action : ParityTraceAction) (value : String) :
    Option CallType :=
  let value :=
    match action with
    | .call a => a.call_type
    | _ => value
  normalize_call_type value

/-- The result of CALL (`evm_trace/parity.py`, class `CallResult`):
`ActionResult` extended with the return data. -/
structure CallResult where
  gas_used : Int
  output : String
deriving DecidableEq

/-- The result of CREATE (`evm_trace/parity.py`, class `CreateResult`):
`ActionResult` extended with the deployed address and code. -/
structure CreateResult where
  gas_used : Int
  address : String
  code : String
deriving DecidableEq

/-- `ParityTraceResult = Union[CallResult, CreateResult]`. -/
inductive ParityTraceResult where
  | call (r : CallResult)
  | create (r : CreateResult)
deriving DecidableEq

/-- One decoded trace record (`evm_trace/parity.py`, class `ParityTrace`).
The `call_type` field already carries the normalized kind, as produced by
`ParityTrace.convert_call_type` at construction time. -/
structure ParityTrace where
  error : Option String
  action : ParityTraceAction
  block_hash : String
  call_type : CallType
  result : Option ParityTraceResult
  subtraces : Int
  trace_address : List Int
  transaction_hash : String
deriving DecidableEq

/-- The keys the assembler ever writes into the `node_kwargs` dictionary. -/
inductive NodeKey where
  | call_type
  | failed
  | address
  | value
  | gas_limit
  | gas_cost
  | calldata
  | returndata
  | calls
deriving DecidableEq

/-- A Python value stored in `node_kwargs`: the kind tag, the failed flag,
an integer, text, Python `None` (e.g. a missing `input` on a call action),
or the list of assembled child nodes. -/
inductive NodeVal where
  | vCallType (c : CallType)
  | vBool (b : Bool)
  | vInt (n : Int)
  | vStr (s : String)
  | vNone
  | vCalls (cs : List (List (NodeKey × NodeVal)))

/-- Modelled from the spec: the external output tree node (`CallTreeNode` of
`evm_trace.base`, not under src/) holds the operation kind, the failed flag,
the kind-dependent fields and the ordered children.  Its own validation rules
are external to this core, so the node is represented by the keyword
dictionary the assembler hands to it; a key absent from the dictionary is a
field absent from the node. -/
abbrev CallTreeNode := List (NodeKey × NodeVal)

/-- Dictionary lookup with Python semantics: the latest binding of a key
wins (models `d[k]` after a sequence of `update` calls and `{**a, **b}`
merges, each represented by list append). -/
def dictGet : CallTreeNode → NodeKey → Option NodeVal
  | [], _ => none
  | (k', v) :: rest, k =>
      match dictGet rest k with
      | some w => some w
      | none => if k' = k then some v else none

/-- Collect a list of optional values, failing (as a propagated Python
exception would) when any element is `none`. -/
def sequenceOption {α : Type} : List (Option α) → Option (List α)
  | [] => some []
  | none :: _ => none
  | some a :: rest => (sequenceOption rest).map (List.cons a)

/-- The child candidates of `root` (parity.py lines 185-190): records whose
trace address is one longer than the root's and whose address with the last
element dropped (`sub.trace_address[:-1]`) equals the root's address, kept in
record-set order. -/
def subtraces_of (trace_list : List ParityTrace) (root : ParityTrace) :
    List ParityTrace :=
  trace_list.filter fun sub =>
    sub.trace_address.length == root.trace_address.length + 1 &&
      sub.trace_address.dropLast == root.trace_address

/-- The longest trace address occurring in a record list; bounds the
recursion depth of assembly. -/
def maxAddrLen : List ParityTrace → Nat
  | [] => 0
  | t :: rest => max t.trace_address.length (maxAddrLen rest)

theorem length_le_maxAddrLen {t : ParityTrace} {l : List ParityTrace}
    (h : t ∈ l) : t.trace_address.length ≤ maxAddrLen l := by
  induction l with
  | nil => cases h
  | cons a rest ih =>
      rcases List.mem_cons.mp h with rfl | hm
      · exact le_max_left _ _
      · exact le_trans (ih hm) (le_max_right _ _)

theorem mem_subtraces_of {l : List ParityTrace} {root sub : ParityTrace}
    (h : sub ∈ subtraces_of l root) :
    sub ∈ l ∧ sub.trace_address.length = root.trace_address.length + 1 := by
  unfold subtraces_of at h
  rw [List.mem_filter] at h
  refine ⟨h.1, ?_⟩
  have h2 := h.2
  simp only [Bool.and_eq_true, beq_iff_eq] at h2
  exact h2.1

/-- The kind-conditioned field projection of the assembler (parity.py lines
141-182): the `node_kwargs.update(...)` entries added for the root's kind.
`none` models the `AttributeError` Python raises when the record's action or
result object does not carry a field the branch reads (the `cast` calls in
the source are erased at runtime and enforce nothing). -/
def kind_node_kwargs (root : ParityTrace) : Option CallTreeNode :=
  if root.call_type = CallType.CREATE then
    match root.action, root.result with
    | .create a, none =>
        some [(.value, .vInt a.value), (.gas_limit, .vInt a.gas),
              (.calldata, .vStr a.init)]
    | .create a, some (.create r) =>
        some [(.value, .vInt a.value), (.gas_limit, .vInt a.gas),
              (.calldata, .vStr a.init),
              (.gas_cost, .vInt r.gas_used), (.address, .vStr r.address)]
    | _, _ => none
  else if root.call_type = CallType.CALL ∨ root.call_type = CallType.DELEGATECALL ∨
      root.call_type = CallType.STATICCALL ∨ root.call_type = CallType.CALLCODE then
    match root.action, root.result with
    | .call a, none =>
        some [(.address, (a.receiver.map NodeVal.vStr).getD .vNone),
              (.value, .vInt a.value), (.gas_limit, .vInt a.gas),
              (.calldata, (a.input.map NodeVal.vStr).getD .vNone)]
    | .call a, some (.call r) =>
        some [(.address, (a.receiver.map NodeVal.vStr).getD .vNone),
              (.value, .vInt a.value), (.gas_limit, .vInt a.gas),
              (.calldata, (a.input.map NodeVal.vStr).getD .vNone),
              (.gas_cost, .vInt r.gas_used), (.returndata, .vStr r.output)]
    | _, _ => none
  else if root.call_type = CallType.SELFDESTRUCT then
    match root.action with
    | .selfDestruct a => some [(.address, .vStr a.address)]
    | _ => none
  else
    some []

/-- `get_calltree_from_parity_trace` (parity.py lines 114-193) with an
explicit root: the base kwargs `{call_type, failed}` with
`failed = root.error is not None`, the kind-conditioned updates, the
recursively assembled children in record-set order, and finally the
caller-supplied overrides merged last (`{**node_kwargs, **root_kwargs}`).
`none` models a raised exception (from a kind/action mismatch, possibly in a
descendant). -/
def get_calltree_from_parity_trace (traces : List ParityTrace)
    (root : ParityTrace) (root_kwargs : CallTreeNode) : Option CallTreeNode :=
  match kind_node_kwargs root with
  | none => none
  | some kk =>
      match sequenceOption ((subtraces_of traces root).attach.map
          (fun s => get_calltree_from_parity_trace traces s.1 [])) with
      | none => none
      | some calls =>
          some ([(NodeKey.call_type, NodeVal.vCallType root.call_type),
                 (NodeKey.failed, NodeVal.vBool root.error.isSome)] ++
                kk ++ [(NodeKey.calls, NodeVal.vCalls calls)] ++ root_kwargs)
termination_by maxAddrLen traces + 1 - root.trace_address.length
decreasing_by
  obtain ⟨hmem, hlen⟩ := mem_subtraces_of s.2
  have hle := length_le_maxAddrLen hmem
  omega

/-- The public entry point with the source's default-root behaviour
(parity.py line 134): `root = root or traces.root[0]`, an `IndexError`
(here `none`) when no root is given and the record set is empty. -/
def get_calltree_from_parity_trace_default (traces : List ParityTrace)
    (root : Option ParityTrace) (root_kwargs : CallTreeNode) :
    Option CallTreeNode :=
  match root, traces with
  | some r, _ => get_calltree_from_parity_trace traces r root_kwargs
  | none, r :: _ => get_calltree_from_parity_trace traces r root_kwargs
  | none, [] => none

/-- Unfolding equation for the assembler with the `attach` bookkeeping of the
termination argument removed. -/
theorem get_calltree_eq (traces : List ParityTrace) (root : ParityTrace)
    (root_kwargs : CallTreeNode) :
    get_calltree_from_parity_trace traces root root_kwargs =
      match kind_node_kwargs root with
      | none => none
      | some kk =>
          match sequenceOption ((subtraces_of traces root).map
              (fun s => get_calltree_from_parity_trace traces s [])) with
          | none => none
          | some calls =>
              some ([(NodeKey.call_type, NodeVal.vCallType root.call_type),
                     (NodeKey.failed, NodeVal.vBool root.error.isSome)] ++
                    kk ++ [(NodeKey.calls, NodeVal.vCalls calls)] ++ root_kwargs) := by
  rw [get_calltree_from_parity_trace]
  rw [List.attach_map_val (subtraces_of traces root)
    (fun s => get_calltree_from_parity_trace traces s [])]

/-- Python dictionary lookup distributes over merge: in `a ++ b` (the model
of `{**a, **b}`) a key bound in `b` takes `b`'s value and any other key falls
back to `a`. -/
theorem dictGet_append (a b : CallTreeNode) (k : NodeKey) :
    dictGet (a ++ b) k =
      match dictGet b k with
      | some v => some v
      | none => dictGet a k := by
  induction a with
  | nil =>
      cases hb : dictGet b k <;> simp [dictGet, hb]
  | cons p rest ih =>
      obtain ⟨k', v⟩ := p
      cases hb : dictGet b k <;> simp [dictGet, ih, hb]

theorem sequenceOption_length {α : Type} {l : List (Option α)} {xs : List α}
    (h : sequenceOption l = some xs) : xs.length = l.length := by
  induction l generalizing xs with
  | nil => simp [sequenceOption] at h; simp [h.symm]
  | cons o rest ih =>
      cases o with
      | none => simp [sequenceOption] at h
      | some a =>
          simp [sequenceOption] at h
          obtain ⟨ys, hys, rfl⟩ := h
          simp [ih hys]

/-- C3: for a record whose decoded action is a `CallAction`, the normalized
operation kind is exactly the normalization of the action's self-reported
`call_type` field; the outer raw kind value `v` does not occur on the right
hand side, so it has no effect on the result. -/
theorem claim_C3_kind_from_call_action (a : CallAction) (v : String) :
    ParityTrace.convert_call_type (ParityTraceAction.call a) v =
      normalize_call_type a.call_type := rfl

/-- C7: kind normalization uppercases the tag, maps SUICIDE to SELFDESTRUCT
(in any letter case), resolves canonical tags, and rejects a tag outside the
closed enum with an unknown-kind error. -/
theorem claim_C7_kind_normalization :
    normalize_call_type "suicide" = some CallType.SELFDESTRUCT ∧
    normalize_call_type "Suicide" = some CallType.SELFDESTRUCT ∧
    normalize_call_type "SUICIDE" = some CallType.SELFDESTRUCT ∧
    normalize_call_type "staticcall" = some CallType.STATICCALL ∧
    normalize_call_type "delegatecall" = some CallType.DELEGATECALL ∧
    normalize_call_type "callcode" = some CallType.CALLCODE ∧
    normalize_call_type "Call" = some CallType.CALL ∧
    normalize_call_type "create" = some CallType.CREATE ∧
    normalize_call_type "bogus" = none := by
  decide

/-- C4 (counterexample): the claim says the plain decimal text "26" fails for
the hex-only fields, but `int("26", 16)` accepts it as a hexadecimal numeral
and yields 38. -/
theorem claim_C4_counterexample :
    CallAction.convert_integer (Raw.str "26") = some 38 := by
  decide

/-- C4 (amended): for the hex-only fields (gas and value on Call and Create
actions), non-text input fails, text is parsed as a base-16 numeral whose
`0x` marker is optional, so the plain decimal text "26" is accepted as
hexadecimal and yields 38, while text that is not a hexadecimal numeral
fails. -/
theorem claim_C4_hex_only_fields :
    (∀ n : Int, CallAction.convert_integer (Raw.int n) = none) ∧
    (∀ n : Int, CreateAction.convert_integer (Raw.int n) = none) ∧
    CallAction.convert_integer (Raw.str "0x1a") = some 26 ∧
    CallAction.convert_integer (Raw.str "26") = some 38 ∧
    CreateAction.convert_integer (Raw.str "26") = some 38 ∧
    CallAction.convert_integer (Raw.str "xyz") = none ∧
    CreateAction.convert_integer (Raw.str "") = none := by
  refine ⟨fun n => rfl, fun n => rfl, ?_, ?_, ?_, ?_, ?_⟩ <;> decide

/-- C5 (counterexample): the claim says any input denoting a negative value
fails with a format error, but the balance validator accepts "-0x1" and
decodes it to -1. -/
theorem claim_C5_counterexample :
    SelfDestructAction.convert_integer (Raw.str "-0x1") = some (-1) := by
  decide

/-- C5 (amended): the numeric validators perform no sign check: a leading
minus sign is accepted on every field and yields a negative decoded value,
and a native negative integer passes the hex-or-native fields unchanged. -/
theorem claim_C5_no_sign_check :
    CallAction.convert_integer (Raw.str "-0x1a") = some (-26) ∧
    CreateAction.convert_integer (Raw.str "-1") = some (-1) ∧
    SelfDestructAction.convert_integer (Raw.int (-5)) = some (-5) ∧
    ActionResult.convert_integer (Raw.str "-1a") = some (-26) := by
  decide

/-- C6 (counterexample): the claim says the text "26" normalizes to 26 for
the hex-or-native fields, but textual input is parsed as hexadecimal there,
so `gas_used` decodes "26" to 38. -/
theorem claim_C6_counterexample :
    ActionResult.convert_integer (Raw.str "26") = some 38 := by
  decide

/-- C6 (amended): for the hex-or-native fields (balance and gas_used),
textual input is parsed as hexadecimal ("0x1a" yields 26, and the text "26"
therefore yields 38, not 26) while non-textual input is cast directly (the
native numeral 26 yields 26). -/
theorem claim_C6_hex_or_native_fields :
    SelfDestructAction.convert_integer (Raw.str "0x1a") = some 26 ∧
    ActionResult.convert_integer (Raw.str "0x1a") = some 26 ∧
    (∀ n : Int, SelfDestructAction.convert_integer (Raw.int n) = some n) ∧
    (∀ n : Int, ActionResult.convert_integer (Raw.int n) = some n) ∧
    SelfDestructAction.convert_integer (Raw.str "26") = some 38 ∧
    ActionResult.convert_integer (Raw.int 26) = some 26 := by
  refine ⟨?_, ?_, fun n => rfl, fun n => rfl, ?_, ?_⟩ <;> decide

/-- The kind-conditioned updates never touch the `failed` key: whatever the
root's kind, `kind_node_kwargs` only writes value, gas_limit, calldata,
gas_cost, returndata or address entries. -/
theorem kind_node_kwargs_not_failed {root : ParityTrace} {kk : CallTreeNode}
    (h : kind_node_kwargs root = some kk) : dictGet kk NodeKey.failed = none := by
  obtain ⟨e, a, bh, ct, r, st, ta, th⟩ := root
  cases ct <;> cases a <;> rcases r with _ | (r | r) <;>
    simp [kind_node_kwargs] at h <;> subst h <;> simp [dictGet]

/-- Appending the caller overrides commutes with assembly: assembling with
`root_kwargs` is assembling with no overrides and then merging the overrides
on the right. -/
theorem get_calltree_root_kwargs (traces : List ParityTrace)
    (root : ParityTrace) (rk : CallTreeNode) :
    get_calltree_from_parity_trace traces root rk =
      (get_calltree_from_parity_trace traces root []).map (fun node => node ++ rk) := by
  rw [get_calltree_eq traces root rk, get_calltree_eq traces root []]
  cases kind_node_kwargs root with
  | none => rfl
  | some kk =>
      cases sequenceOption ((subtraces_of traces root).map
          (fun s => get_calltree_from_parity_trace traces s [])) with
      | none => rfl
      | some calls => simp

/-- The spec's concrete scenario: the root CALL record, with a result. -/
def exTrace0 : ParityTrace :=
  { error := none,
    action := .call { gas := 21000, input := none, receiver := some "0xB",
                      sender := "0xA", value := 0, call_type := "call" },
    block_hash := "0xbh", call_type := .CALL,
    result := some (.call { gas_used := 1, output := "0x" }),
    subtraces := 1, trace_address := [], transaction_hash := "0xth" }

/-- The spec's concrete scenario: the reverted child CALL record. -/
def exTrace1 : ParityTrace :=
  { error := some "reverted",
    action := .call { gas := 256, input := none, receiver := some "0xC",
                      sender := "0xB", value := 0, call_type := "call" },
    block_hash := "0xbh", call_type := .CALL, result := none,
    subtraces := 0, trace_address := [0], transaction_hash := "0xth" }

/-- The spec's concrete scenario as a record set. -/
def exTraces : List ParityTrace := [exTrace0, exTrace1]

/-- The node assembled from `exTrace1`: failed, no gas_cost, no returndata. -/
def exNode1 : CallTreeNode :=
  [(.call_type, .vCallType .CALL), (.failed, .vBool true),
   (.address, .vStr "0xC"), (.value, .vInt 0), (.gas_limit, .vInt 256),
   (.calldata, .vNone), (.calls, .vCalls [])]

/-- The node assembled from `exTrace0`: result fields set, one child. -/
def exNode0 : CallTreeNode :=
  [(.call_type, .vCallType .CALL), (.failed, .vBool false),
   (.address, .vStr "0xB"), (.value, .vInt 0), (.gas_limit, .vInt 21000),
   (.calldata, .vNone), (.gas_cost, .vInt 1), (.returndata, .vStr "0x"),
   (.calls, .vCalls [exNode1])]

theorem exNode1_eval :
    get_calltree_from_parity_trace exTraces exTrace1 [] = some exNode1 := by
  rw [get_calltree_eq]
  rfl

theorem exNode0_eval :
    get_calltree_from_parity_trace exTraces exTrace0 [] = some exNode0 := by
  rw [get_calltree_eq]
  rw [show subtraces_of exTraces exTrace0 = [exTrace1] from rfl]
  rw [List.map_cons, List.map_nil, exNode1_eval]
  rfl

/-- C1 (counterexample): the root record `exTrace0` has no error, yet the
assembled node's failed flag is false — the claim, which asks for failed =
true exactly when the error is absent, is false on this input. -/
theorem claim_C1_counterexample :
    exTrace0.error = none ∧
    get_calltree_from_parity_trace exTraces exTrace0 [] = some exNode0 ∧
    dictGet exNode0 NodeKey.failed = some (NodeVal.vBool false) ∧
    dictGet exNode0 NodeKey.failed ≠ some (NodeVal.vBool true) := by
  refine ⟨rfl, exNode0_eval, rfl, ?_⟩
  intro hc
  simp [dictGet, exNode0] at hc

/-- C1 (amended): the assembled node's failed flag is true if and only if the
root record's error field IS present (`failed = root.error is not None`). -/
theorem claim_C1_failed_iff_error_present (traces : List ParityTrace)
    (root : ParityTrace) (node : CallTreeNode)
    (h : get_calltree_from_parity_trace traces root [] = some node) :
    dictGet node NodeKey.failed = some (NodeVal.vBool root.error.isSome) := by
  rw [get_calltree_eq] at h
  cases hk : kind_node_kwargs root with
  | none => rw [hk] at h; cases h
  | some kk =>
      rw [hk] at h
      cases hs : sequenceOption ((subtraces_of traces root).map
          (fun s => get_calltree_from_parity_trace traces s [])) with
      | none => rw [hs] at h; cases h
      | some calls =>
          rw [hs, Option.some.injEq] at h
          subst h
          rw [List.append_nil, dictGet_append, dictGet_append]
          rw [show dictGet [(NodeKey.calls, NodeVal.vCalls calls)] NodeKey.failed
              = none from rfl]
          rw [kind_node_kwargs_not_failed hk]
          rfl

/-- C1 (amended, witness): on the reverted child record the error is present
and the assembled node's failed flag is true. -/
theorem claim_C1_witness :
    get_calltree_from_parity_trace exTraces exTrace1 [] = some exNode1 ∧
    dictGet exNode1 NodeKey.failed = some (NodeVal.vBool exTrace1.error.isSome) :=
  ⟨exNode1_eval,
   claim_C1_failed_iff_error_present exTraces exTrace1 exNode1 exNode1_eval⟩

/-- C2: the assembled node's children are exactly the records whose trace
address is one element longer than the root's and whose address with the
last element dropped equals the root's address, each recursively assembled,
in record-set order (`List.filter` keeps the input order). -/
theorem claim_C2_children_are_prefix_matches (traces : List ParityTrace)
    (root : ParityTrace) (node : CallTreeNode)
    (h : get_calltree_from_parity_trace traces root [] = some node) :
    dictGet node NodeKey.calls =
      (sequenceOption ((traces.filter fun sub =>
          sub.trace_address.length == root.trace_address.length + 1 &&
            sub.trace_address.dropLast == root.trace_address).map
        (fun s => get_calltree_from_parity_trace traces s []))).map
        NodeVal.vCalls := by
  have hfil : subtraces_of traces root = traces.filter fun sub =>
      sub.trace_address.length == root.trace_address.length + 1 &&
        sub.trace_address.dropLast == root.trace_address := rfl
  rw [← hfil]
  rw [get_calltree_eq] at h
  cases hk : kind_node_kwargs root with
  | none => rw [hk] at h; cases h
  | some kk =>
      rw [hk] at h
      cases hs : sequenceOption ((subtraces_of traces root).map
          (fun s => get_calltree_from_parity_trace traces s [])) with
      | none => rw [hs] at h; cases h
      | some calls =>
          rw [hs, Option.some.injEq] at h
          subst h
          rw [List.append_nil, dictGet_append, dictGet_append]
          rw [show dictGet [(NodeKey.calls, NodeVal.vCalls calls)] NodeKey.calls
              = some (NodeVal.vCalls calls) from rfl]
          rfl

/-- C2 (witness): on the spec's concrete scenario the root's children list is
the assembly of the single depth-1 record. -/
theorem claim_C2_witness :
    get_calltree_from_parity_trace exTraces exTrace0 [] = some exNode0 ∧
    dictGet exNode0 NodeKey.calls =
      (sequenceOption ((exTraces.filter fun sub =>
          sub.trace_address.length == exTrace0.trace_address.length + 1 &&
            sub.trace_address.dropLast == exTrace0.trace_address).map
        (fun s => get_calltree_from_parity_trace exTraces s []))).map
        NodeVal.vCalls :=
  ⟨exNode0_eval,
   claim_C2_children_are_prefix_matches exTraces exTrace0 exNode0 exNode0_eval⟩

/-- C8: for a CALL-family record whose error is set and whose result is
absent, the assembled node carries no gas_cost and no returndata entry and
its failed flag is true. -/
theorem claim_C8_failed_call_has_no_result_fields (traces : List ParityTrace)
    (root : ParityTrace) (node : CallTreeNode)
    (hk : root.call_type = CallType.CALL ∨ root.call_type = CallType.DELEGATECALL ∨
      root.call_type = CallType.STATICCALL ∨ root.call_type = CallType.CALLCODE)
    (he : root.error.isSome = true) (hr : root.result = none)
    (h : get_calltree_from_parity_trace traces root [] = some node) :
    dictGet node NodeKey.gas_cost = none ∧
    dictGet node NodeKey.returndata = none ∧
    dictGet node NodeKey.failed = some (NodeVal.vBool true) := by
  have hct : root.call_type ≠ CallType.CREATE := by
    rcases hk with h1 | h1 | h1 | h1 <;> rw [h1] <;> intro hc <;> cases hc
  have hkk : kind_node_kwargs root = none ∨
      ∃ a : CallAction, kind_node_kwargs root =
        some [(.address, (a.receiver.map NodeVal.vStr).getD .vNone),
              (.value, .vInt a.value), (.gas_limit, .vInt a.gas),
              (.calldata, (a.input.map NodeVal.vStr).getD .vNone)] := by
    unfold kind_node_kwargs
    rw [if_neg hct, if_pos hk, hr]
    cases root.action with
    | create a => left; rfl
    | call a => right; exact ⟨a, rfl⟩
    | selfDestruct a => left; rfl
  rw [get_calltree_eq] at h
  rcases hkk with hnone | ⟨a, hkk⟩
  · rw [hnone] at h; cases h
  · rw [hkk] at h
    cases hs : sequenceOption ((subtraces_of traces root).map
        (fun s => get_calltree_from_parity_trace traces s [])) with
    | none => rw [hs] at h; cases h
    | some calls =>
        rw [hs, Option.some.injEq] at h
        subst h
        rw [List.append_nil]
        refine ⟨?_, ?_, ?_⟩ <;>
          simp [dictGet_append, dictGet, he]

/-- C8 (witness): the reverted child CALL of the concrete scenario has an
error, no result, and its assembled node has no gas_cost, no returndata and
failed = true. -/
theorem claim_C8_witness :
    exTrace1.call_type = CallType.CALL ∧ exTrace1.error.isSome = true ∧
    exTrace1.result = none ∧
    get_calltree_from_parity_trace exTraces exTrace1 [] = some exNode1 ∧
    (dictGet exNode1 NodeKey.gas_cost = none ∧
     dictGet exNode1 NodeKey.returndata = none ∧
     dictGet exNode1 NodeKey.failed = some (NodeVal.vBool true)) :=
  ⟨rfl, rfl, rfl, exNode1_eval,
   claim_C8_failed_call_has_no_result_fields exTraces exTrace1 exNode1
     (Or.inl rfl) rfl rfl exNode1_eval⟩

/-- C9: caller-supplied overrides are applied last during assembly — every
key present in the overrides takes the override's value in the resulting
node, and every key absent from the overrides keeps the value computed by
the override-free assembly. -/
theorem claim_C9_override_merge (traces : List ParityTrace)
    (root : ParityTrace) (rk : CallTreeNode) (node : CallTreeNode)
    (h : get_calltree_from_parity_trace traces root rk = some node) :
    ∃ base, get_calltree_from_parity_trace traces root [] = some base ∧
      ∀ k, dictGet node k =
        match dictGet rk k with
        | some v => some v
        | none => dictGet base k := by
  rw [get_calltree_root_kwargs] at h
  cases hb : get_calltree_from_parity_trace traces root [] with
  | none => rw [hb] at h; cases h
  | some base =>
      rw [hb, Option.map_some', Option.some.injEq] at h
      subst h
      exact ⟨base, rfl, fun k => dictGet_append base rk k⟩

/-- The concrete override of the spec's example: force the failed flag. -/
def exOverride : CallTreeNode := [(NodeKey.failed, NodeVal.vBool true)]

/-- C9 (witness): assembling the error-free root with the override
`{failed: true}` yields the computed node merged with the override, the
overridden failed flag is forced to true, and the unoverridden gas_cost
keeps its computed value. -/
theorem claim_C9_witness :
    get_calltree_from_parity_trace exTraces exTrace0 exOverride =
      some (exNode0 ++ exOverride) ∧
    exTrace0.error = none ∧
    dictGet (exNode0 ++ exOverride) NodeKey.failed = some (NodeVal.vBool true) ∧
    dictGet (exNode0 ++ exOverride) NodeKey.gas_cost = some (NodeVal.vInt 1) ∧
    (∃ base, get_calltree_from_parity_trace exTraces exTrace0 [] = some base ∧
      ∀ k, dictGet (exNode0 ++ exOverride) k =
        match dictGet exOverride k with
        | some v => some v
        | none => dictGet base k) := by
  have hyp : get_calltree_from_parity_trace exTraces exTrace0 exOverride =
      some (exNode0 ++ exOverride) := by
    rw [get_calltree_root_kwargs, exNode0_eval]; rfl
  exact ⟨hyp, rfl, rfl, rfl,
    claim_C9_override_merge exTraces exTrace0 exOverride (exNode0 ++ exOverride) hyp⟩

/-- A record set with two sibling records sharing the identical trace
address `[0]`: the root plus two otherwise-different selfdestruct records. -/
def exDupRoot : ParityTrace :=
  { error := none, action := .selfDestruct { address := "0xR", balance := 0 },
    block_hash := "0xbh", call_type := .SELFDESTRUCT, result := none,
    subtraces := 2, trace_address := [], transaction_hash := "0xth" }

/-- First duplicate-address sibling. -/
def exDupChildA : ParityTrace :=
  { error := none, action := .selfDestruct { address := "0xDA", balance := 1 },
    block_hash := "0xbh", call_type := .SELFDESTRUCT, result := none,
    subtraces := 0, trace_address := [0], transaction_hash := "0xth" }

/-- Second duplicate-address sibling, at the same address `[0]`. -/
def exDupChildB : ParityTrace :=
  { error := none, action := .selfDestruct { address := "0xDB", balance := 2 },
    block_hash := "0xbh", call_type := .SELFDESTRUCT, result := none,
    subtraces := 0, trace_address := [0], transaction_hash := "0xth" }

/-- The duplicate-address record set. -/
def exDupTraces : List ParityTrace := [exDupRoot, exDupChildA, exDupChildB]

/-- Node assembled from the first duplicate. -/
def exDupNodeA : CallTreeNode :=
  [(.call_type, .vCallType .SELFDESTRUCT), (.failed, .vBool false),
   (.address, .vStr "0xDA"), (.calls, .vCalls [])]

/-- Node assembled from the second duplicate. -/
def exDupNodeB : CallTreeNode :=
  [(.call_type, .vCallType .SELFDESTRUCT), (.failed, .vBool false),
   (.address, .vStr "0xDB"), (.calls, .vCalls [])]

/-- Root node of the duplicate-address set: both duplicates appear as
children, in record-set order. -/
def exDupNode : CallTreeNode :=
  [(.call_type, .vCallType .SELFDESTRUCT), (.failed, .vBool false),
   (.address, .vStr "0xR"), (.calls, .vCalls [exDupNodeA, exDupNodeB])]

theorem exDupNodeA_eval :
    get_calltree_from_parity_trace exDupTraces exDupChildA [] = some exDupNodeA := by
  rw [get_calltree_eq]
  rfl

theorem exDupNodeB_eval :
    get_calltree_from_parity_trace exDupTraces exDupChildB [] = some exDupNodeB := by
  rw [get_calltree_eq]
  rfl

theorem exDupNode_eval :
    get_calltree_from_parity_trace exDupTraces exDupRoot [] = some exDupNode := by
  rw [get_calltree_eq]
  rw [show subtraces_of exDupTraces exDupRoot = [exDupChildA, exDupChildB] from rfl]
  rw [List.map_cons, List.map_cons, List.map_nil, exDupNodeA_eval, exDupNodeB_eval]
  rfl

/-- C10: duplicate trace addresses are not detected or rejected — the
children list has exactly one entry per matching record (duplicates
included), and two records with the same trace address receive the same
child-candidate list. -/
theorem claim_C10_duplicate_addresses_kept (traces : List ParityTrace)
    (root : ParityTrace) (node : CallTreeNode)
    (h : get_calltree_from_parity_trace traces root [] = some node) :
    ∃ calls, dictGet node NodeKey.calls = some (NodeVal.vCalls calls) ∧
      calls.length = (subtraces_of traces root).length ∧
      ∀ t1 t2 : ParityTrace, t1.trace_address = t2.trace_address →
        subtraces_of traces t1 = subtraces_of traces t2 := by
  rw [get_calltree_eq] at h
  cases hk : kind_node_kwargs root with
  | none => rw [hk] at h; cases h
  | some kk =>
      rw [hk] at h
      cases hs : sequenceOption ((subtraces_of traces root).map
          (fun s => get_calltree_from_parity_trace traces s [])) with
      | none => rw [hs] at h; cases h
      | some calls =>
          rw [hs, Option.some.injEq] at h
          subst h
          refine ⟨calls, ?_, ?_, ?_⟩
          · rw [List.append_nil, dictGet_append, dictGet_append]
            rw [show dictGet [(NodeKey.calls, NodeVal.vCalls calls)] NodeKey.calls
                = some (NodeVal.vCalls calls) from rfl]
          · rw [sequenceOption_length hs, List.length_map]
          · intro t1 t2 h12
            unfold subtraces_of
            rw [h12]

/-- C10 (witness): in the duplicate-address record set both records at `[0]`
are kept as siblings of the root, in record-set order, each with the same
(empty) child set; assembly raises no error. -/
theorem claim_C10_witness :
    exDupChildA.trace_address = exDupChildB.trace_address ∧
    get_calltree_from_parity_trace exDupTraces exDupRoot [] = some exDupNode ∧
    dictGet exDupNode NodeKey.calls =
      some (NodeVal.vCalls [exDupNodeA, exDupNodeB]) ∧
    (∃ calls, dictGet exDupNode NodeKey.calls = some (NodeVal.vCalls calls) ∧
      calls.length = (subtraces_of exDupTraces exDupRoot).length ∧
      ∀ t1 t2 : ParityTrace, t1.trace_address = t2.trace_address →
        subtraces_of exDupTraces t1 = subtraces_of exDupTraces t2) :=
  ⟨rfl, exDupNode_eval, rfl,
   claim_C10_duplicate_addresses_kept exDupTraces exDupRoot exDupNode exDupNode_eval⟩
